import Mathlib

/-!
Shallow embedding of the weather_prediction service core:
`format_weather_data` and `append_weather_data_to_csv` from
`src/utils/csv_handler.py`, the fetch functions from
`src/utils/weather_fetcher.py`, and the hour-aligned scheduling
arithmetic of `background_fetch` in `src/main.py`.

Python dictionaries are modelled as association lists with unique keys,
Python values as the inductive `Value` (int / float / str / dict / None),
the CSV file as `Option (List CsvLine)` (`none` = file absent,
`some []` = file exists with zero size), the network as an
`Except NetError dict`, and the try/except boundary of the appender as an
`IOEnv` flag saying whether the file write raises.
-/

set_option linter.unusedVariables false

namespace WeatherPrediction

/-- A Python/JSON value as it occurs in this program. -/
inductive Value where
  | int : Int → Value
  | float : Rat → Value
  | str : String → Value
  | dict : List (String × Value) → Value
  | none : Value
deriving Repr

/-- A Python dict of strings to values, as an association list. -/
abbrev Dict := List (String × Value)

/-- A local calendar time as held by `datetime.now()`:
year, month, day, hour, minute (seconds are ignored by the
`%Y-%m-%dT%H:%M` format string used in `format_weather_data`). -/
structure DT where
  year : Nat
  month : Nat
  day : Nat
  hour : Nat
  minute : Nat

/-- The decimal digit character for `n` (used for zero-padded fields). -/
def digitChar (n : Nat) : Char := Char.ofNat (48 + n)

/-- Model of `datetime.strftime("%Y-%m-%dT%H:%M")`: zero-padded decimal fields
joined by the literal separators. -/
def strftimeYmdHM (dt : DT) : String :=
  ⟨[digitChar (dt.year / 1000 % 10), digitChar (dt.year / 100 % 10),
    digitChar (dt.year / 10 % 10), digitChar (dt.year % 10), '-',
    digitChar (dt.month / 10 % 10), digitChar (dt.month % 10), '-',
    digitChar (dt.day / 10 % 10), digitChar (dt.day % 10), 'T',
    digitChar (dt.hour / 10 % 10), digitChar (dt.hour % 10), ':',
    digitChar (dt.minute / 10 % 10), digitChar (dt.minute % 10)]⟩

/-- Decides whether a character is a decimal digit. -/
def isDigitChar (c : Char) : Bool := 48 ≤ c.toNat && c.toNat ≤ 57

/-- Decides whether a string matches the pattern `YYYY-MM-DDTHH:MM`. -/
def isYmdHM (s : String) : Bool :=
  match s.data with
  | [y1, y2, y3, y4, a, m1, m2, b, d1, d2, c, h1, h2, e, n1, n2] =>
    isDigitChar y1 && isDigitChar y2 && isDigitChar y3 && isDigitChar y4 &&
    (a == '-') && isDigitChar m1 && isDigitChar m2 && (b == '-') &&
    isDigitChar d1 && isDigitChar d2 && (c == 'T') &&
    isDigitChar h1 && isDigitChar h2 && (e == ':') &&
    isDigitChar n1 && isDigitChar n2
  | _ => false

/-- The fixed column schema `COLUMNS` of `csv_handler.py`. -/
def COLUMNS : List String :=
  ["time",
   "temperature_2m (°C)",
   "relative_humidity_2m (%)",
   "precipitation (mm)",
   "rain (mm)",
   "weather_code (wmo code)",
   "cloud_cover (%)",
   "surface_pressure (hPa)",
   "wind_speed_10m (km/h)",
   "wind_direction_10m (°)",
   "is_day ()"]

/-- The `formatted_data` dict literal built inside `format_weather_data`
in `csv_handler.py`: each entry is `current_data.get(key, default)`, with
the time default `datetime.now().strftime("%Y-%m-%dT%H:%M")`. -/
def formatted_row (current_data : Dict) (now : DT) : Dict :=
  [("time", (List.lookup "time" current_data).getD
      (Value.str (strftimeYmdHM now))),
   ("temperature_2m (°C)",
    (List.lookup "temperature_2m" current_data).getD (Value.int 0)),
   ("relative_humidity_2m (%)",
    (List.lookup "relative_humidity_2m" current_data).getD (Value.int 0)),
   ("precipitation (mm)",
    (List.lookup "precipitation" current_data).getD (Value.float 0)),
   ("rain (mm)",
    (List.lookup "rain" current_data).getD (Value.float 0)),
   ("weather_code (wmo code)",
    (List.lookup "weather_code" current_data).getD (Value.int 0)),
   ("cloud_cover (%)",
    (List.lookup "cloud_cover" current_data).getD (Value.int 0)),
   ("surface_pressure (hPa)",
    (List.lookup "surface_pressure" current_data).getD (Value.int 0)),
   ("wind_speed_10m (km/h)",
    (List.lookup "wind_speed_10m" current_data).getD (Value.int 0)),
   ("wind_direction_10m (°)",
    (List.lookup "wind_direction_10m" current_data).getD (Value.int 0)),
   ("is_day ()",
    (List.lookup "is_day" current_data).getD (Value.int 0))]

/-- Model of `format_weather_data(weather_data)` from `csv_handler.py`, with the
`datetime.now()` call made an explicit parameter `now`.
`weather_data.get("current_data", {})` is the lookup with default `{}`;
calling `.get` on a non-dict value raises `AttributeError`, modelled as
`Except.error`. -/
def format_weather_data (weather_data : Dict) (now : DT) : Except String Dict :=
  match (List.lookup "current_data" weather_data).getD (Value.dict []) with
  | Value.dict current_data => Except.ok (formatted_row current_data now)
  | _ => Except.error "AttributeError"

/-- The `"current_data"` entry of a snapshot, as consulted by
`format_weather_data`: the stored dict, `{}` when the key is absent. -/
def currentDataOf (weather_data : Dict) : Dict :=
  match (List.lookup "current_data" weather_data).getD (Value.dict []) with
  | Value.dict d => d
  | _ => []

/-- A snapshot on which `format_weather_data` does not raise: its
`"current_data"` entry, when present, is a dict. -/
def snapshotOk (weather_data : Dict) : Bool :=
  match (List.lookup "current_data" weather_data).getD (Value.dict []) with
  | Value.dict _ => true
  | _ => false

/-- One line of the persisted CSV file: a header line carrying the column
labels, or a data line carrying the row's cell values. -/
inductive CsvLine where
  | header : List String → CsvLine
  | row : List Value → CsvLine

/-- The CSV file state: `none` = path does not exist,
`some lines` = file exists with the given lines (`some []` = zero size). -/
abbrev CsvFile := Option (List CsvLine)

/-- Whether the file-system write raises an exception
(disk full, permission denied, missing parent directory, ...). -/
structure IOEnv where
  writeFails : Bool

/-- The header decision of `append_weather_data_to_csv`:
`write_header = not (os.path.exists(csv_path) and os.path.getsize(csv_path) > 0)`. -/
def needsHeader (file : CsvFile) : Bool :=
  !(file.isSome && decide (0 < (file.getD []).length))

/-- Model of `append_weather_data_to_csv(weather_data, csv_path)` from
`csv_handler.py`: format the snapshot, build the one-row DataFrame over
`COLUMNS`, append with `mode="a"` writing the header exactly when
`needsHeader`; any exception (from formatting or the write) is caught and
turned into `False` with the file untouched. Returns the success flag and
the resulting file state. -/
def append_weather_data_to_csv (weather_data : Dict) (now : DT)
    (file : CsvFile) (env : IOEnv) : Bool × CsvFile :=
  match format_weather_data weather_data now with
  | Except.error _ => (false, file)
  | Except.ok formatted_data =>
    let dfRow : List Value :=
      COLUMNS.map (fun c => (List.lookup c formatted_data).getD Value.none)
    let write_header := needsHeader file
    if env.writeFails then (false, file)
    else
      (true, some ((file.getD []) ++
        (if write_header then [CsvLine.header COLUMNS] else []) ++
        [CsvLine.row dfRow]))

/-- An error raised inside the network layer of a fetch: a timeout, a
non-2xx status surfaced by `raise_for_status`, malformed JSON surfaced by
`response.json()`, or any other raised exception. -/
inductive NetError where
  | timeout : NetError
  | httpStatus : Nat → NetError
  | malformedJson : NetError
  | raised : String → NetError

/-- The network layer's behaviour for one request: either the parsed
top-level JSON object, or a raised error. -/
abbrev NetResult := Except NetError Dict

/-- Model of `fetch_current_weather_data()` from `utils/weather_fetcher.py`: on any
raised error return `{}`; otherwise repackage the parsed JSON. -/
def fetch_current_weather_data (net : NetResult) : Dict :=
  match net with
  | Except.error _ => []
  | Except.ok data =>
    [("current_data", (List.lookup "current" data).getD (Value.dict [])),
     ("current_data_units",
      (List.lookup "current_units" data).getD (Value.dict [])),
     ("metadata", Value.dict
       [("coordinates", Value.dict
          [("latitude", (List.lookup "latitude" data).getD Value.none),
           ("longitude", (List.lookup "longitude" data).getD Value.none)]),
        ("elevation", (List.lookup "elevation" data).getD Value.none),
        ("timezone", (List.lookup "timezone" data).getD Value.none),
        ("timezone_abbreviation",
         (List.lookup "timezone_abbreviation" data).getD Value.none),
        ("utc_offset_seconds",
         (List.lookup "utc_offset_seconds" data).getD Value.none)])]

/-- Model of `fetch_hourly_weather_data()` from `utils/weather_fetcher.py`: on any
raised error return `{}`; otherwise repackage the parsed JSON. -/
def fetch_hourly_weather_data (net : NetResult) : Dict :=
  match net with
  | Except.error _ => []
  | Except.ok data =>
    [("hourly_data", (List.lookup "hourly" data).getD (Value.dict [])),
     ("daily_data", (List.lookup "daily" data).getD (Value.dict [])),
     ("metadata", Value.dict
       [("coordinates", Value.dict
          [("latitude", (List.lookup "latitude" data).getD Value.none),
           ("longitude", (List.lookup "longitude" data).getD Value.none)]),
        ("elevation", (List.lookup "elevation" data).getD Value.none),
        ("timezone", (List.lookup "timezone" data).getD Value.none),
        ("timezone_abbreviation",
         (List.lookup "timezone_abbreviation" data).getD Value.none),
        ("utc_offset_seconds",
         (List.lookup "utc_offset_seconds" data).getD Value.none)])]

/-- Model of `fetch_historic_weather_data()` from `utils/weather_fetcher.py`: on any
raised error return `{}`; otherwise return the parsed JSON unchanged. -/
def fetch_historic_weather_data (net : NetResult) : Dict :=
  match net with
  | Except.error _ => []
  | Except.ok data => data

/-- A wall-clock instant as `datetime.now()` sees it for the scheduling
arithmetic: the hour counts whole hours since an arbitrary origin so that
crossing midnight needs no special case; minute, second and microsecond
are the within-hour components. -/
structure ClockTime where
  hour : Nat
  minute : Nat
  second : Nat
  microsecond : Nat

/-- Seconds since the origin, `(t - origin).total_seconds()`, as an exact rational. -/
def ClockTime.toSeconds (t : ClockTime) : ℚ :=
  3600 * t.hour + 60 * t.minute + t.second + (t.microsecond : ℚ) / 1000000

/-- The initial delay computed by `background_fetch` in `main.py`:
`next_hour = now.replace(minute=0, second=0, microsecond=0)`;
`if now >= next_hour: next_hour += timedelta(hours=1)`;
`initial_delay = (next_hour - now).total_seconds()`. -/
def background_fetch_initial_delay (now : ClockTime) : ℚ :=
  let hourStart : ClockTime := { now with minute := 0, second := 0, microsecond := 0 }
  let next_hour : ClockTime :=
    if hourStart.toSeconds ≤ now.toSeconds
    then { hourStart with hour := hourStart.hour + 1 }
    else hourStart
  next_hour.toSeconds - now.toSeconds

/-- One iteration of the `while True` body of `background_fetch` in
`main.py`: fetch the current snapshot, hand it to the CSV appender
(success only logged), then `time.sleep(3600)`. The global
`fetch_interval` is in scope but the body never reads it. Returns the new
`latest_weather_data`, the new file state, and the slept seconds. -/
def background_loop_iteration (fetch_interval : Int) (net : NetResult)
    (now : DT) (file : CsvFile) (env : IOEnv) : Dict × CsvFile × Nat :=
  let latest_weather_data := fetch_current_weather_data net
  let result := append_weather_data_to_csv latest_weather_data now file env
  (latest_weather_data, result.2, 3600)

/-- The `/update-frequency` handler in `main.py`: FastAPI validates
`seconds > 0` at the boundary, then the handler stores `seconds` into the
global `fetch_interval`, discarding the old value. Returns the new value
of `fetch_interval`, or a validation error. -/
def update_frequency (seconds : Int) (fetch_interval : Int) :
    Except String Int :=
  if 0 < seconds then Except.ok seconds else Except.error "validation error"

/-- Run a sequence of appends against a file state: each element gives the
snapshot, the clock reading and the I/O behaviour of one call. -/
def appendMany (inputs : List (Dict × DT × IOEnv)) (file : CsvFile) : CsvFile :=
  inputs.foldl
    (fun fs inp => (append_weather_data_to_csv inp.1 inp.2.1 fs inp.2.2).2) file

/-- Whether a CSV line is a header line. -/
def CsvLine.isHeader : CsvLine → Bool
  | CsvLine.header _ => true
  | CsvLine.row _ => false

/-- Whether a CSV line is a data row. -/
def CsvLine.isRow : CsvLine → Bool
  | CsvLine.header _ => false
  | CsvLine.row _ => true

/-- Number of header lines in a file's contents. -/
def headerCount (lines : List CsvLine) : Nat := lines.countP (·.isHeader)

/-- Number of data rows in a file's contents. -/
def rowCount (lines : List CsvLine) : Nat := lines.countP (·.isRow)

/-- The lifetime invariant of the CSV file: it is absent, or empty, or
contains exactly one header line. -/
def HeaderInv (file : CsvFile) : Prop :=
  file = Option.none ∨ file = some [] ∨
    ∃ lines, file = some lines ∧ headerCount lines = 1

/-- The ten numeric columns of the schema, each with the `current_data`
key it reads and the default it substitutes when that key is absent
(`0.00`, a float, for precipitation and rain; `0`, an int, otherwise). -/
def numericDefaults : List (String × String × Value) :=
  [("temperature_2m (°C)", "temperature_2m", Value.int 0),
   ("relative_humidity_2m (%)", "relative_humidity_2m", Value.int 0),
   ("precipitation (mm)", "precipitation", Value.float 0),
   ("rain (mm)", "rain", Value.float 0),
   ("weather_code (wmo code)", "weather_code", Value.int 0),
   ("cloud_cover (%)", "cloud_cover", Value.int 0),
   ("surface_pressure (hPa)", "surface_pressure", Value.int 0),
   ("wind_speed_10m (km/h)", "wind_speed_10m", Value.int 0),
   ("wind_direction_10m (°)", "wind_direction_10m", Value.int 0),
   ("is_day ()", "is_day", Value.int 0)]

/-! ## Helper lemmas -/

/-- On a well-formed snapshot, `format_weather_data` succeeds and returns
the `formatted_row` built from the snapshot's `current_data`. -/
theorem format_eq_ok (wd : Dict) (now : DT) (hwf : snapshotOk wd = true) :
    format_weather_data wd now =
      Except.ok (formatted_row (currentDataOf wd) now) := by
  unfold snapshotOk at hwf
  unfold format_weather_data currentDataOf
  rcases h : (List.lookup "current_data" wd).getD (Value.dict []) with
    _ | _ | _ | d | _ <;> rw [h] at hwf <;> simp_all

/-- Whenever `format_weather_data` succeeds, the keys of the result are
exactly `COLUMNS`, in order. -/
theorem format_ok_keys (wd : Dict) (now : DT) (out : Dict)
    (h : format_weather_data wd now = Except.ok out) :
    out.map Prod.fst = COLUMNS := by
  unfold format_weather_data at h
  rcases hc : (List.lookup "current_data" wd).getD (Value.dict []) with
    _ | _ | _ | d | _ <;> rw [hc] at h <;> simp only [Except.ok.injEq,
      reduceCtorEq] at h
  subst h
  rfl

/-- The initial delay of `background_fetch`, in closed form: one hour
minus the seconds elapsed since the last hour mark. -/
theorem initial_delay_eq (t : ClockTime) :
    background_fetch_initial_delay t =
      3600 - (60 * t.minute + t.second + (t.microsecond : ℚ) / 1000000) := by
  have h0 : (0:ℚ) ≤ 60 * t.minute + t.second + (t.microsecond : ℚ) / 1000000 := by
    positivity
  unfold background_fetch_initial_delay ClockTime.toSeconds
  simp only
  rw [if_pos (by push_cast; linarith)]
  push_cast
  ring

/-- The default value substituted for a missing `current_data` key lands
in the formatted row under the matching column label. -/
theorem formatted_row_default (d : Dict) (now : DT) (col src : String)
    (dflt : Value) (hmem : (col, src, dflt) ∈ numericDefaults)
    (hmiss : List.lookup src d = none) :
    List.lookup col (formatted_row d now) = some dflt := by
  simp only [numericDefaults, List.mem_cons, List.not_mem_nil, or_false,
    Prod.mk.injEq] at hmem
  rcases hmem with ⟨h1, h2, h3⟩ | ⟨h1, h2, h3⟩ | ⟨h1, h2, h3⟩ | ⟨h1, h2, h3⟩ |
    ⟨h1, h2, h3⟩ | ⟨h1, h2, h3⟩ | ⟨h1, h2, h3⟩ | ⟨h1, h2, h3⟩ |
    ⟨h1, h2, h3⟩ | ⟨h1, h2, h3⟩ <;> subst h1 <;> subst h2 <;> subst h3 <;>
    simp [formatted_row, List.lookup, hmiss]

/-- Appending one data row leaves the header count unchanged. -/
theorem headerCount_append_row (xs : List CsvLine) (v : List Value) :
    headerCount (xs ++ [CsvLine.row v]) = headerCount xs := by
  simp [headerCount, List.countP_append, List.countP_cons, CsvLine.isHeader]

/-- One append preserves the header invariant of the CSV file. -/
theorem headerInv_step (wd : Dict) (now : DT) (file : CsvFile) (env : IOEnv)
    (h : HeaderInv file) :
    HeaderInv (append_weather_data_to_csv wd now file env).2 := by
  unfold append_weather_data_to_csv
  cases hf : format_weather_data wd now with
  | error e => exact h
  | ok formatted =>
    by_cases he : env.writeFails
    · simp only [he, if_true]
      exact h
    · simp only [he, if_false, Bool.false_eq_true]
      rcases h with rfl | rfl | ⟨lines, rfl, hc⟩
      · exact Or.inr (Or.inr ⟨_, rfl,
          by simp [headerCount, needsHeader, CsvLine.isHeader]⟩)
      · exact Or.inr (Or.inr ⟨_, rfl,
          by simp [headerCount, needsHeader, CsvLine.isHeader]⟩)
      · refine Or.inr (Or.inr ⟨_, rfl, ?_⟩)
        cases lines with
        | nil => simp [headerCount] at hc
        | cons l ls =>
          have hn : needsHeader (some (l :: ls)) = false := by
            simp [needsHeader]
          simp only [hn, Bool.false_eq_true, if_false, Option.getD_some,
            List.append_nil, headerCount_append_row]
          exact hc

/-- Any sequence of appends preserves the header invariant. -/
theorem headerInv_appendMany (inputs : List (Dict × DT × IOEnv))
    (file : CsvFile) (h : HeaderInv file) :
    HeaderInv (appendMany inputs file) := by
  induction inputs generalizing file with
  | nil => exact h
  | cons i is ih =>
    rw [appendMany, List.foldl_cons]
    exact ih _ (headerInv_step i.1 i.2.1 file i.2.2 h)

/-! ## Claims -/

/-- C1: for every WeatherSnapshot input to `format_weather_data` whose
`current_data` entry is a mapping (including the entirely empty mapping
produced by a failed fetch), the returned row has exactly the 11 fixed
columns in the fixed order; each missing numeric field defaults to `0`
(`0.00`, a float, for precipitation and rain), and a missing timestamp
defaults to the current local time rendered as `YYYY-MM-DDTHH:MM`. -/
theorem format_weather_data_defaults (wd : Dict) (now : DT)
    (hwf : snapshotOk wd = true) :
    ∃ out, format_weather_data wd now = Except.ok out ∧
      out.map Prod.fst = COLUMNS ∧
      out.length = 11 ∧
      (∀ col src dflt, (col, src, dflt) ∈ numericDefaults →
         List.lookup src (currentDataOf wd) = none →
         List.lookup col out = some dflt) ∧
      (List.lookup "time" (currentDataOf wd) = none →
         List.lookup "time" out = some (Value.str (strftimeYmdHM now))) ∧
      isYmdHM (strftimeYmdHM now) = true := by
  refine ⟨formatted_row (currentDataOf wd) now, format_eq_ok wd now hwf,
    rfl, rfl, ?_, ?_, ?_⟩
  · intro col src dflt hmem hmiss
    exact formatted_row_default _ now col src dflt hmem hmiss
  · intro hmiss
    simp [formatted_row, List.lookup, hmiss]
  · have hdig : ∀ n : Nat, n < 10 → isDigitChar (digitChar n) = true := by decide
    have h10 : ∀ n : Nat, isDigitChar (digitChar (n % 10)) = true :=
      fun n => hdig _ (Nat.mod_lt _ (by norm_num))
    simp [isYmdHM, strftimeYmdHM, h10]

/-- C1 witness: the entirely empty snapshot at a concrete clock time. -/
theorem format_weather_data_defaults_witness :
    ∃ out, format_weather_data [] ⟨2025, 3, 7, 14, 5⟩ = Except.ok out ∧
      out.map Prod.fst = COLUMNS ∧
      out.length = 11 ∧
      (∀ col src dflt, (col, src, dflt) ∈ numericDefaults →
         List.lookup src (currentDataOf []) = none →
         List.lookup col out = some dflt) ∧
      (List.lookup "time" (currentDataOf []) = none →
         List.lookup "time" out =
           some (Value.str (strftimeYmdHM ⟨2025, 3, 7, 14, 5⟩))) ∧
      isYmdHM (strftimeYmdHM ⟨2025, 3, 7, 14, 5⟩) = true :=
  format_weather_data_defaults [] ⟨2025, 3, 7, 14, 5⟩ rfl

/-- C2: the initial delay computed by `background_fetch` equals the
seconds from `now` to the next wall-clock hour boundary strictly in the
future; at 14:23:10 it is 2210 seconds, and exactly on an hour boundary
it is 3600 seconds, not zero. -/
theorem background_fetch_initial_delay_spec :
    (∀ t : ClockTime, background_fetch_initial_delay t =
       ClockTime.toSeconds ⟨t.hour + 1, 0, 0, 0⟩ - ClockTime.toSeconds t) ∧
    background_fetch_initial_delay ⟨14, 23, 10, 0⟩ = 2210 ∧
    (∀ h : Nat, background_fetch_initial_delay ⟨h, 0, 0, 0⟩ = 3600) := by
  refine ⟨?_, ?_, ?_⟩
  · intro t
    rw [initial_delay_eq]
    unfold ClockTime.toSeconds
    push_cast
    ring
  · rw [initial_delay_eq]
    norm_num
  · intro h
    rw [initial_delay_eq]
    norm_num

/-- C2 witness: the concrete delay at 14:23:10 extracted from the spec
theorem. -/
theorem background_fetch_initial_delay_spec_witness :
    background_fetch_initial_delay ⟨14, 23, 10, 0⟩ = 2210 :=
  background_fetch_initial_delay_spec.2.1

/-- C9: for every valid clock reading, the initial delay computed by
`background_fetch` is strictly positive and at most 3600 seconds. -/
theorem background_fetch_initial_delay_bounds (t : ClockTime)
    (hm : t.minute < 60) (hs : t.second < 60) (hu : t.microsecond < 1000000) :
    0 < background_fetch_initial_delay t ∧
      background_fetch_initial_delay t ≤ 3600 := by
  have hm' : (t.minute : ℚ) ≤ 59 := by exact_mod_cast Nat.lt_succ_iff.mp hm
  have hs' : (t.second : ℚ) ≤ 59 := by exact_mod_cast Nat.lt_succ_iff.mp hs
  have hu' : (t.microsecond : ℚ) / 1000000 < 1 := by
    rw [div_lt_one (by norm_num)]
    exact_mod_cast hu
  have h0 : (0:ℚ) ≤ 60 * t.minute + t.second + (t.microsecond : ℚ) / 1000000 := by
    positivity
  rw [initial_delay_eq]
  constructor <;> linarith

/-- C9 witness: the bounds at the concrete clock reading 14:23:10. -/
theorem background_fetch_initial_delay_bounds_witness :
    0 < background_fetch_initial_delay ⟨14, 23, 10, 0⟩ ∧
      background_fetch_initial_delay ⟨14, 23, 10, 0⟩ ≤ 3600 :=
  background_fetch_initial_delay_bounds ⟨14, 23, 10, 0⟩ (by norm_num)
    (by norm_num) (by norm_num)

/-- C10: at a fixed clock time the output of `format_weather_data` is
determined solely by the snapshot's `current_data` entry, and on success
the output's keys are exactly the 11 fixed columns, so extraneous keys of
`current_data` never appear in the output. -/
theorem format_weather_data_noninterference :
    (∀ wd₁ wd₂ : Dict, ∀ now : DT,
       (List.lookup "current_data" wd₁).getD (Value.dict []) =
         (List.lookup "current_data" wd₂).getD (Value.dict []) →
       format_weather_data wd₁ now = format_weather_data wd₂ now) ∧
    (∀ wd : Dict, ∀ now : DT, ∀ out : Dict,
       format_weather_data wd now = Except.ok out →
       out.map Prod.fst = COLUMNS ∧ out.length = 11) := by
  constructor
  · intro wd₁ wd₂ now h
    unfold format_weather_data
    rw [h]
  · intro wd now out h
    refine ⟨format_ok_keys wd now out h, ?_⟩
    have hk := format_ok_keys wd now out h
    have := congrArg List.length hk
    simpa using this

/-- C3: `append_weather_data_to_csv` writes a header exactly when the
file is absent or has zero size, and across any sequence of appends
starting from an absent file, a non-empty file always contains exactly
one header line. -/
theorem append_header_exactly_once :
    (∀ file : CsvFile, needsHeader file = true ↔
       (file = Option.none ∨ file = some [])) ∧
    (∀ file : CsvFile, ∀ inputs : List (Dict × DT × IOEnv),
       HeaderInv file → HeaderInv (appendMany inputs file)) ∧
    (∀ inputs : List (Dict × DT × IOEnv), ∀ lines : List CsvLine,
       appendMany inputs Option.none = some lines → lines ≠ [] →
       headerCount lines = 1) := by
  refine ⟨?_, ?_, ?_⟩
  · intro file
    rcases file with _ | (_ | ⟨l, ls⟩) <;> simp [needsHeader]
  · intro file inputs h
    exact headerInv_appendMany inputs file h
  · intro inputs lines h hne
    rcases headerInv_appendMany inputs Option.none (Or.inl rfl) with
      h2 | h2 | ⟨ls, h2, hc⟩
    · rw [h] at h2
      cases h2
    · rw [h] at h2
      exact absurd (Option.some.inj h2) hne
    · rw [h] at h2
      rw [Option.some.inj h2]
      exact hc

/-- C3 witness: one append to an absent file yields a file holding
exactly one header line. -/
theorem append_header_exactly_once_witness :
    headerCount [CsvLine.header COLUMNS,
      CsvLine.row [Value.str "2025-01-01T00:00", Value.int 0, Value.int 0,
        Value.float 0, Value.float 0, Value.int 0, Value.int 0, Value.int 0,
        Value.int 0, Value.int 0, Value.int 0]] = 1 :=
  append_header_exactly_once.2.2 [([], ⟨2025, 1, 1, 0, 0⟩, ⟨false⟩)] _ rfl
    (by simp)

/-- C4: `append_weather_data_to_csv` always returns a boolean — `true`
exactly when formatting succeeds and the file write raises no exception —
and on failure the file is left untouched; no exception propagates. -/
theorem append_weather_data_to_csv_catches (wd : Dict) (now : DT)
    (file : CsvFile) (env : IOEnv) :
    ((append_weather_data_to_csv wd now file env).1 = true ↔
      ((∃ out, format_weather_data wd now = Except.ok out) ∧
        env.writeFails = false)) ∧
    ((append_weather_data_to_csv wd now file env).1 = false →
      (append_weather_data_to_csv wd now file env).2 = file) := by
  unfold append_weather_data_to_csv
  cases hf : format_weather_data wd now with
  | error e =>
    constructor
    · simp [hf]
    · intro
      rfl
  | ok formatted =>
    by_cases he : env.writeFails <;>
      constructor <;> simp [he, hf]

/-- C4 witness: a raising file write yields `false` and leaves the file
state unchanged. -/
theorem append_weather_data_to_csv_catches_witness :
    (append_weather_data_to_csv [] ⟨2025, 1, 1, 0, 0⟩ Option.none ⟨true⟩).2 =
      Option.none :=
  (append_weather_data_to_csv_catches [] ⟨2025, 1, 1, 0, 0⟩ Option.none
    ⟨true⟩).2 rfl

/-- C5: for every raised network-layer error (timeout, non-2xx status,
malformed JSON, or any other exception), each of the three fetch
functions returns the empty mapping; the error never propagates. -/
theorem fetch_error_returns_empty (e : NetError) :
    fetch_current_weather_data (Except.error e) = [] ∧
    fetch_hourly_weather_data (Except.error e) = [] ∧
    fetch_historic_weather_data (Except.error e) = [] :=
  ⟨rfl, rfl, rfl⟩

/-- C5 witness: a timeout observed by all three fetch functions yields
the empty mapping. -/
theorem fetch_error_returns_empty_witness :
    fetch_current_weather_data (Except.error NetError.timeout) = [] ∧
    fetch_hourly_weather_data (Except.error NetError.timeout) = [] ∧
    fetch_historic_weather_data (Except.error NetError.timeout) = [] :=
  fetch_error_returns_empty NetError.timeout

/-- C6: the background loop's behaviour is independent of the mutable
`fetch_interval` — including any value `/update-frequency` stores into
it — and every iteration sleeps exactly 3600 seconds. -/
theorem background_loop_ignores_fetch_interval :
    (∀ fi₁ fi₂ : Int, ∀ net : NetResult, ∀ now : DT, ∀ file : CsvFile,
       ∀ env : IOEnv,
       background_loop_iteration fi₁ net now file env =
         background_loop_iteration fi₂ net now file env) ∧
    (∀ fi : Int, ∀ net : NetResult, ∀ now : DT, ∀ file : CsvFile,
       ∀ env : IOEnv,
       (background_loop_iteration fi net now file env).2.2 = 3600) ∧
    (∀ s fi : Int, 0 < s → update_frequency s fi = Except.ok s) :=
  ⟨fun _ _ _ _ _ _ => rfl, fun _ _ _ _ _ => rfl, fun _ _ h => if_pos h⟩

/-- C6 witness: an interval stored by `/update-frequency` is accepted,
yet a loop iteration under it still sleeps 3600 seconds. -/
theorem background_loop_ignores_fetch_interval_witness :
    update_frequency 7200 3600 = Except.ok 7200 :=
  background_loop_ignores_fetch_interval.2.2 7200 3600 (by norm_num)

/-- C7: a successful append leaves every previously written line of the
file in place (the old contents are a prefix of the new) and adds exactly
one data row, at the end. -/
theorem append_success_appends_one_row (wd : Dict) (now : DT)
    (file : CsvFile) (env : IOEnv)
    (hs : (append_weather_data_to_csv wd now file env).1 = true) :
    ∃ newLines,
      (append_weather_data_to_csv wd now file env).2 = some newLines ∧
      (file.getD []) <+: newLines ∧
      rowCount newLines = rowCount (file.getD []) + 1 ∧
      (∃ v, newLines.getLast? = some (CsvLine.row v)) := by
  unfold append_weather_data_to_csv at hs ⊢
  cases hf : format_weather_data wd now with
  | error e =>
    rw [hf] at hs
    simp at hs
  | ok formatted =>
    rw [hf] at hs
    by_cases he : env.writeFails
    · simp [he] at hs
    · simp only [he, Bool.false_eq_true, if_false]
      refine ⟨_, rfl, ?_, ?_, ?_⟩
      · rw [List.append_assoc]
        exact ⟨_, rfl⟩
      · by_cases hw : needsHeader file <;>
          simp [hw, rowCount, List.countP_append, List.countP_cons,
            CsvLine.isRow]
      · exact ⟨_, List.getLast?_concat _⟩

/-- C7 witness: a successful append to an absent file at a concrete
input. -/
theorem append_success_appends_one_row_witness :
    ∃ newLines,
      (append_weather_data_to_csv [] ⟨2025, 1, 1, 0, 0⟩ Option.none
        ⟨false⟩).2 = some newLines ∧
      ((Option.none : CsvFile).getD []) <+: newLines ∧
      rowCount newLines = rowCount ((Option.none : CsvFile).getD []) + 1 ∧
      (∃ v, newLines.getLast? = some (CsvLine.row v)) :=
  append_success_appends_one_row [] ⟨2025, 1, 1, 0, 0⟩ Option.none ⟨false⟩ rfl

/-- C8: appending the same snapshot twice to an existing non-empty file
appends one data row per call — the same row both times — with no
deduplication and no duplicated header. -/
theorem append_twice_appends_identical_rows (wd : Dict) (now : DT)
    (lines : List CsvLine) (env : IOEnv)
    (hne : lines ≠ []) (henv : env.writeFails = false)
    (hwf : snapshotOk wd = true) :
    ∃ v : List Value,
      append_weather_data_to_csv wd now (some lines) env =
        (true, some (lines ++ [CsvLine.row v])) ∧
      append_weather_data_to_csv wd now (some (lines ++ [CsvLine.row v]))
          env =
        (true, some (lines ++ [CsvLine.row v, CsvLine.row v])) ∧
      headerCount (lines ++ [CsvLine.row v, CsvLine.row v]) =
        headerCount lines := by
  obtain ⟨l, ls, rfl⟩ : ∃ l ls, lines = l :: ls := by
    cases lines with
    | nil => exact absurd rfl hne
    | cons a b => exact ⟨a, b, rfl⟩
  have hfmt := format_eq_ok wd now hwf
  refine ⟨COLUMNS.map (fun c =>
    (List.lookup c (formatted_row (currentDataOf wd) now)).getD Value.none),
    ?_, ?_, ?_⟩
  · unfold append_weather_data_to_csv
    rw [hfmt]
    simp [henv, needsHeader]
  · unfold append_weather_data_to_csv
    rw [hfmt]
    simp [henv, needsHeader]
  · simp [headerCount, List.countP_append, List.countP_cons,
      CsvLine.isHeader]

/-- C8 witness: two appends of the empty snapshot to a file holding just
the header. -/
theorem append_twice_appends_identical_rows_witness :
    ∃ v : List Value,
      append_weather_data_to_csv [] ⟨2025, 1, 1, 0, 0⟩
          (some [CsvLine.header COLUMNS]) ⟨false⟩ =
        (true, some ([CsvLine.header COLUMNS] ++ [CsvLine.row v])) ∧
      append_weather_data_to_csv [] ⟨2025, 1, 1, 0, 0⟩
          (some ([CsvLine.header COLUMNS] ++ [CsvLine.row v])) ⟨false⟩ =
        (true, some ([CsvLine.header COLUMNS] ++
          [CsvLine.row v, CsvLine.row v])) ∧
      headerCount ([CsvLine.header COLUMNS] ++
          [CsvLine.row v, CsvLine.row v]) =
        headerCount [CsvLine.header COLUMNS] :=
  append_twice_appends_identical_rows [] ⟨2025, 1, 1, 0, 0⟩
    [CsvLine.header COLUMNS] ⟨false⟩ (by simp) rfl rfl

/-- C10 witness: two snapshots sharing `current_data` but differing in
their metadata produce the same output. -/
theorem format_weather_data_noninterference_witness :
    format_weather_data
      [("current_data", Value.dict [("temperature_2m", Value.float 21)]),
       ("metadata", Value.str "a")] ⟨2025, 3, 7, 14, 5⟩ =
    format_weather_data
      [("current_data", Value.dict [("temperature_2m", Value.float 21)]),
       ("current_data_units", Value.dict [])] ⟨2025, 3, 7, 14, 5⟩ :=
  format_weather_data_noninterference.1 _ _ ⟨2025, 3, 7, 14, 5⟩ rfl

end WeatherPrediction
